import Mathlib

/-!
Shallow embedding of the `nova-ecs-render-three` package: the ECS components
(`src/components/*.ts`), the geometry/material factories and the per-frame
`ThreeRenderSystem` (`src/systems/ThreeRenderSystem.ts`).  TypeScript numbers
are modelled as `ℚ`; the one place the code leaves the rationals — the
degree-to-radian conversion `x * Math.PI / 180` — is modelled exactly by the
rational coefficient of `π` (see `RadAngle`).
Three.js objects (meshes, lights, cameras, materials, geometries) are modelled
as records of the constructor arguments the wrapped library receives, tagged
with a `uid` drawn from a counter so that object identity (creation, reuse,
disposal) is observable.  Exceptions thrown by the wrapped library are
modelled by a `FailEnv` that tells, per entity id and per call site, whether
the underlying Three.js call throws.
-/

namespace NovaRenderThree

/-- A 3-component vector of TypeScript numbers (`{x, y, z}` records). -/
structure Vec3 where
  x : ℚ
  y : ℚ
  z : ℚ
deriving Repr, DecidableEq

/-- An angle in radians, represented exactly as a rational multiple of `π`:
`⟨q⟩` stands for the real number `q * π`.  Every radian value this system ever
writes has the form `deg * π / 180`, so the representation is lossless and
keeps the model executable and decidable. -/
structure RadAngle where
  coeffPi : ℚ
deriving Repr, DecidableEq

/-- The conversion `deg * Math.PI / 180` applied per axis by
`_updateMeshTransform` and `_updateCameraTransform`: the result represents
`(d / 180) * π = d * π / 180` radians. -/
def degToRad (d : ℚ) : RadAngle := ⟨d / 180⟩

/-- Euler angles in radians, as stored by `THREE.Euler`. -/
structure EVec3 where
  x : RadAngle
  y : RadAngle
  z : RadAngle
deriving Repr, DecidableEq

/-- The zero Euler rotation of a freshly constructed `THREE.Object3D`. -/
def EVec3.zero : EVec3 := ⟨⟨0⟩, ⟨0⟩, ⟨0⟩⟩

/-- Componentwise degree-to-radian conversion of a rotation vector. -/
def Vec3.toRad (v : Vec3) : EVec3 := ⟨degToRad v.x, degToRad v.y, degToRad v.z⟩

/-- JavaScript `v || d` on an optional number: `undefined` and `0` are falsy. -/
def jsOrQ (v : Option ℚ) (d : ℚ) : ℚ :=
  match v with
  | none => d
  | some x => if x = 0 then d else x

/-- JavaScript `v || d` on an optional string: `undefined` and `""` are falsy. -/
def jsOrS (v : Option String) (d : String) : String :=
  match v with
  | none => d
  | some s => if s = "" then d else s

/-- JavaScript `v || d` on an optional boolean. -/
def jsOrB (v : Option Bool) (d : Bool) : Bool :=
  match v with
  | none => d
  | some b => b || d

/-- Lookup in a `Record<string, number>` (`ThreeGeometryComponent.parameters`). -/
def getParam (params : List (String × ℚ)) (key : String) : Option ℚ :=
  (params.find? (fun p => p.1 == key)).map (fun p => p.2)

/-- JavaScript `parameters.key || d` as used throughout `_createGeometry`. -/
def jsParam (params : List (String × ℚ)) (key : String) (d : ℚ) : ℚ :=
  jsOrQ (getParam params key) d

/-- The `materialType` union of `ThreeMaterialComponent`. -/
inductive MaterialType
  | standard
  | basic
  | phong
  | physical
  | wireframe
deriving Repr, DecidableEq

/-- The `lightType` union of `ThreeLightComponent`. -/
inductive LightType
  | ambient
  | directional
  | point
  | spot
  | hemisphere
deriving Repr, DecidableEq

/-- The `cameraType` union of `ThreeCameraComponent`. -/
inductive CameraType
  | perspective
  | orthographic
deriving Repr, DecidableEq

/-- Constructor arguments of the `THREE.BufferGeometry` subclasses produced by
`ThreeRenderSystem._createGeometry`. -/
inductive GeometryDesc
  | boxG (width height depth : ℚ)
  | sphereG (radius widthSegments heightSegments : ℚ)
  | planeG (width height : ℚ)
  | cylinderG (radiusTop radiusBottom height radialSegments : ℚ)
  | coneG (radius height radialSegments : ℚ)
  | torusG (radius tube radialSegments tubularSegments : ℚ)
deriving Repr, DecidableEq

/-- The `config` object `_createMaterial` builds from a material component. -/
structure MaterialBase where
  color : String
  transparent : Bool
  opacity : ℚ
  wireframe : Bool
deriving Repr, DecidableEq

/-- Constructor arguments of the `THREE.Material` subclasses produced by
`ThreeRenderSystem._createMaterial`.  `meshStandardHex` is the
`new THREE.MeshStandardMaterial({ color: 0x4CAF50 })` fallback used when the
entity has no material component. -/
inductive MaterialDesc
  | meshStandard (base : MaterialBase) (metalness roughness : ℚ)
      (emissive : String) (emissiveIntensity : ℚ)
  | meshBasic (base : MaterialBase)
  | meshPhong (base : MaterialBase) (shininess : ℚ)
  | meshPhysical (base : MaterialBase) (metalness roughness : ℚ)
      (emissive : String) (emissiveIntensity : ℚ)
  | meshStandardHex (color : Nat)
deriving Repr, DecidableEq

/-- Constructor arguments of the `THREE.Camera` subclasses produced by
`ThreeRenderSystem._createCamera`. -/
inductive CameraDesc
  | perspective (fov aspect near far : ℚ)
  | orthographic (left right top bottom near far : ℚ)
deriving Repr, DecidableEq

/-- A Three.js color slot: set either from a CSS string by the constructor
(`new THREE.Color(s)`) or from a parsed number by
`color.setHex(parseInt(...))`; `none` in `fromHex` models `NaN`. -/
inductive ColorRepr
  | fromString (s : String)
  | fromHex (n : Option Nat)
deriving Repr, DecidableEq

/-- A live `THREE.Mesh`: the fields this system reads or writes, plus a `uid`
witnessing object identity. -/
structure MeshObj where
  uid : Nat
  geometry : Nat × GeometryDesc
  material : Nat × MaterialDesc
  position : Vec3
  rotation : EVec3
  scale : Vec3
  castShadow : Bool
  receiveShadow : Bool
  userDataEntityId : Nat
deriving Repr, DecidableEq

/-- A live `THREE.Light`.  `rotation` is the inherited `Object3D` Euler, which
this system never writes. -/
structure LightObj where
  uid : Nat
  kind : LightType
  color : ColorRepr
  groundColor : Option String
  intensity : ℚ
  castShadow : Bool
  position : Vec3
  rotation : EVec3
deriving Repr, DecidableEq

/-- A live `THREE.Camera`. -/
structure CameraObj where
  uid : Nat
  desc : CameraDesc
  position : Vec3
  rotation : EVec3
deriving Repr, DecidableEq

/-- `TransformComponent`: position, rotation (degrees) and scale.  The source
class declares exactly these three fields and no dirty flag. -/
structure TransformComponent where
  position : Vec3
  rotation : Vec3
  scale : Vec3
deriving Repr, DecidableEq

/-- The `TransformComponent` constructor: each argument defaults when absent. -/
def mkTransformComponent (position rotation scale : Option Vec3) :
    TransformComponent :=
  { position := position.getD ⟨0, 0, 0⟩
    rotation := rotation.getD ⟨0, 0, 0⟩
    scale := scale.getD ⟨1, 1, 1⟩ }

/-- `ThreeMeshComponent`: a nullable mesh reference plus a dirty flag. -/
structure ThreeMeshComponent where
  mesh : Option MeshObj
  needsUpdate : Bool
deriving Repr, DecidableEq

/-- The `ThreeMeshComponent` constructor (`mesh || null`). -/
def mkThreeMeshComponent (mesh : Option MeshObj) : ThreeMeshComponent :=
  { mesh := mesh, needsUpdate := false }

/-- `ThreeMaterialComponent`: plain data fields plus the dirty flag. -/
structure ThreeMaterialComponent where
  materialType : MaterialType
  color : String
  metalness : ℚ
  roughness : ℚ
  emissive : String
  emissiveIntensity : ℚ
  transparent : Bool
  opacity : ℚ
  wireframe : Bool
  texture : Option String
  needsUpdate : Bool
deriving Repr, DecidableEq

/-- The `Partial<ThreeMaterialComponent>` config accepted by its constructor. -/
structure MaterialCfg where
  materialType : Option MaterialType
  color : Option String
  metalness : Option ℚ
  roughness : Option ℚ
  emissive : Option String
  emissiveIntensity : Option ℚ
  transparent : Option Bool
  opacity : Option ℚ
  wireframe : Option Bool
  texture : Option String

/-- The all-absent config (`{}`). -/
def MaterialCfg.empty : MaterialCfg :=
  ⟨none, none, none, none, none, none, none, none, none, none⟩

/-- The `ThreeMaterialComponent` constructor: every field is filled with
JavaScript `config.f || default` semantics. -/
def mkThreeMaterialComponent (config : MaterialCfg) : ThreeMaterialComponent :=
  { materialType := config.materialType.getD .standard
    color := jsOrS config.color "#ffffff"
    metalness := jsOrQ config.metalness 0
    roughness := jsOrQ config.roughness 1
    emissive := jsOrS config.emissive "#000000"
    emissiveIntensity := jsOrQ config.emissiveIntensity 0
    transparent := jsOrB config.transparent false
    opacity := jsOrQ config.opacity 1
    wireframe := jsOrB config.wireframe false
    texture := config.texture
    needsUpdate := false }

/-- `ThreeGeometryComponent`: a type tag (an arbitrary string, since the
constructor accepts `string` and casts), a parameter record, and the flag. -/
structure ThreeGeometryComponent where
  geometryType : String
  parameters : List (String × ℚ)
  needsUpdate : Bool
deriving Repr, DecidableEq

/-- The `ThreeGeometryComponent` constructor (defaults `'box'` and `{}`). -/
def mkThreeGeometryComponent (geometryType : Option String)
    (parameters : Option (List (String × ℚ))) : ThreeGeometryComponent :=
  { geometryType := geometryType.getD "box"
    parameters := parameters.getD []
    needsUpdate := false }

/-- `ThreeLightComponent`: light configuration plus nullable light and flag. -/
structure ThreeLightComponent where
  lightType : LightType
  color : String
  intensity : ℚ
  castShadow : Bool
  light : Option LightObj
  needsUpdate : Bool
deriving Repr, DecidableEq

/-- The `Partial<ThreeLightComponent>` config accepted by its constructor. -/
structure LightCfg where
  lightType : Option LightType
  color : Option String
  intensity : Option ℚ
  castShadow : Option Bool

/-- The all-absent config (`{}`). -/
def LightCfg.empty : LightCfg := ⟨none, none, none, none⟩

/-- The `ThreeLightComponent` constructor (`config.f || default`). -/
def mkThreeLightComponent (config : LightCfg) : ThreeLightComponent :=
  { lightType := config.lightType.getD .directional
    color := jsOrS config.color "#ffffff"
    intensity := jsOrQ config.intensity 1
    castShadow := jsOrB config.castShadow false
    light := none
    needsUpdate := false }

/-- `ThreeCameraComponent`: camera configuration plus nullable camera, flag. -/
structure ThreeCameraComponent where
  cameraType : CameraType
  fov : ℚ
  aspect : ℚ
  near : ℚ
  far : ℚ
  camera : Option CameraObj
  needsUpdate : Bool
deriving Repr, DecidableEq

/-- The `Partial<ThreeCameraComponent>` config accepted by its constructor. -/
structure CameraCfg where
  cameraType : Option CameraType
  fov : Option ℚ
  aspect : Option ℚ
  near : Option ℚ
  far : Option ℚ

/-- The all-absent config (`{}`). -/
def CameraCfg.empty : CameraCfg := ⟨none, none, none, none, none⟩

/-- The `ThreeCameraComponent` constructor (`config.f || default`). -/
def mkThreeCameraComponent (config : CameraCfg) : ThreeCameraComponent :=
  { cameraType := config.cameraType.getD .perspective
    fov := jsOrQ config.fov 75
    aspect := jsOrQ config.aspect 1
    near := jsOrQ config.near (1 / 10)
    far := jsOrQ config.far 1000
    camera := none
    needsUpdate := false }

/-- An ECS entity as this system sees it: an id, the `active` flag, and the
six component slots it queries via `hasComponent`/`getComponent`. -/
structure Entity where
  id : Nat
  active : Bool
  transform : Option TransformComponent
  meshC : Option ThreeMeshComponent
  materialC : Option ThreeMaterialComponent
  geometryC : Option ThreeGeometryComponent
  lightC : Option ThreeLightComponent
  cameraC : Option ThreeCameraComponent
deriving Repr, DecidableEq

/-- The filter of `_processMeshEntities`: active with Transform and Mesh. -/
def meshQualifies (e : Entity) : Bool :=
  e.active && e.transform.isSome && e.meshC.isSome

/-- The filter of `_processLightEntities`: active with Transform and Light. -/
def lightQualifies (e : Entity) : Bool :=
  e.active && e.transform.isSome && e.lightC.isSome

/-- The filter of `_processCameraEntities`: active with Transform and Camera. -/
def cameraQualifies (e : Entity) : Bool :=
  e.active && e.transform.isSome && e.cameraC.isSome

/-- `Required<ThreeRenderSystemOptions>` (canvas omitted: never branched on
by the processing code). -/
structure SysOptions where
  enableShadows : Bool
  shadowMapSize : ℚ
  backgroundColor : Nat
  antialias : Bool
deriving Repr, DecidableEq

/-- `ThreeRenderSystem.DEFAULT_OPTIONS`. -/
def defaultOptions : SysOptions :=
  { enableShadows := true, shadowMapSize := 2048,
    backgroundColor := 0x1a1a1a, antialias := true }

/-- Which camera `this.camera` currently holds: the constructor-made default
`PerspectiveCamera(75, 800/600, 0.1, 1000)` or a camera taken from an entity's
camera component. -/
inductive CameraUse
  | defaultCamera
  | entityCamera (c : CameraObj)
deriving Repr, DecidableEq

/-- The observable renderer-side state: the scene (uids of added objects, in
insertion order), the fresh-uid counter, the active camera, the `dispose()`
log for materials and geometries, and the `console.error` log. -/
structure RenderState where
  scene : List Nat
  nextUid : Nat
  camera : CameraUse
  disposedMaterials : List Nat
  disposedGeometries : List Nat
  errorLog : List String
deriving Repr, DecidableEq

/-- Renderer state right after the `ThreeRenderSystem` constructor ran. -/
def initialRenderState : RenderState :=
  { scene := [], nextUid := 0, camera := .defaultCamera,
    disposedMaterials := [], disposedGeometries := [], errorLog := [] }

/-- The whole system: options, the `_isInitialized` flag, `this.world`
(the entity list), `_frameCount`, and the renderer state. -/
structure SysState where
  options : SysOptions
  isInitialized : Bool
  world : Option (List Entity)
  frameCount : Nat
  render : RenderState
deriving Repr, DecidableEq

/-- A freshly constructed system (before `onAddedToWorld`). -/
def mkSystem (opts : SysOptions) : SysState :=
  { options := opts, isInitialized := false, world := none,
    frameCount := 0, render := initialRenderState }

/-- `onAddedToWorld`: records the world and sets `_isInitialized = true`. -/
def onAddedToWorld (sys : SysState) (w : List Entity) : SysState :=
  { sys with world := some w, isInitialized := true }

/-- `_cleanup`: disposes scene resources and empties the scene.  (Disposal of
the wrapped library's internal buffers is not observable in this model.) -/
def cleanup (sys : SysState) : SysState :=
  { sys with render := { sys.render with scene := [] } }

/-- `onRemovedFromWorld`: `_cleanup()` then `_isInitialized = false`. -/
def onRemovedFromWorld (sys : SysState) : SysState :=
  { cleanup sys with isInitialized := false }

/-- `ThreeRenderSystem._createGeometry`: the switch over `geometryType`, with
JavaScript `parameters.p || default` for every constructor argument and a unit
box for a missing component or an unrecognized type. -/
def createGeometry (geometryComp : Option ThreeGeometryComponent) :
    GeometryDesc :=
  match geometryComp with
  | none => .boxG 1 1 1
  | some gc =>
    let p := gc.parameters
    if gc.geometryType = "box" then
      .boxG (jsParam p "width" 1) (jsParam p "height" 1) (jsParam p "depth" 1)
    else if gc.geometryType = "sphere" then
      .sphereG (jsParam p "radius" (1 / 2)) (jsParam p "widthSegments" 16)
        (jsParam p "heightSegments" 12)
    else if gc.geometryType = "plane" then
      .planeG (jsParam p "width" 1) (jsParam p "height" 1)
    else if gc.geometryType = "cylinder" then
      .cylinderG (jsParam p "radiusTop" (1 / 2)) (jsParam p "radiusBottom" (1 / 2))
        (jsParam p "height" 1) (jsParam p "radialSegments" 8)
    else if gc.geometryType = "cone" then
      .coneG (jsParam p "radius" (1 / 2)) (jsParam p "height" 1)
        (jsParam p "radialSegments" 8)
    else if gc.geometryType = "torus" then
      .torusG (jsParam p "radius" (2 / 5)) (jsParam p "tube" (1 / 5))
        (jsParam p "radialSegments" 8) (jsParam p "tubularSegments" 6)
    else
      .boxG 1 1 1

/-- `ThreeRenderSystem._createMaterial`: the switch over `materialType`. -/
def createMaterial (materialComp : Option ThreeMaterialComponent) :
    MaterialDesc :=
  match materialComp with
  | none => .meshStandardHex 0x4CAF50
  | some m =>
    let config : MaterialBase := ⟨m.color, m.transparent, m.opacity, m.wireframe⟩
    match m.materialType with
    | .standard =>
      .meshStandard config m.metalness m.roughness m.emissive m.emissiveIntensity
    | .basic => .meshBasic config
    | .phong => .meshPhong config ((1 - m.roughness) * 100)
    | .physical =>
      .meshPhysical config m.metalness m.roughness m.emissive m.emissiveIntensity
    | .wireframe => .meshBasic { config with wireframe := true }

/-- `ThreeRenderSystem._createLight` without the `scene.add`: builds the light
object for the component's `lightType`, honouring the shadow option.  A light
whose class never has `castShadow` assigned keeps the `Object3D` default
`false`. -/
def createLightObj (opts : SysOptions) (uid : Nat) (lc : ThreeLightComponent) :
    LightObj :=
  match lc.lightType with
  | .ambient =>
    { uid := uid, kind := .ambient, color := .fromString lc.color,
      groundColor := none, intensity := lc.intensity, castShadow := false,
      position := ⟨0, 0, 0⟩, rotation := EVec3.zero }
  | .directional =>
    { uid := uid, kind := .directional, color := .fromString lc.color,
      groundColor := none, intensity := lc.intensity,
      castShadow := opts.enableShadows && lc.castShadow,
      position := ⟨0, 0, 0⟩, rotation := EVec3.zero }
  | .point =>
    { uid := uid, kind := .point, color := .fromString lc.color,
      groundColor := none, intensity := lc.intensity,
      castShadow := opts.enableShadows && lc.castShadow,
      position := ⟨0, 0, 0⟩, rotation := EVec3.zero }
  | .spot =>
    { uid := uid, kind := .spot, color := .fromString lc.color,
      groundColor := none, intensity := lc.intensity,
      castShadow := opts.enableShadows && lc.castShadow,
      position := ⟨0, 0, 0⟩, rotation := EVec3.zero }
  | .hemisphere =>
    { uid := uid, kind := .hemisphere, color := .fromString lc.color,
      groundColor := some "#404040", intensity := lc.intensity,
      castShadow := false, position := ⟨0, 0, 0⟩, rotation := EVec3.zero }

/-- `ThreeRenderSystem._createCamera`: perspective from the component fields,
or orthographic with the hard-coded `size = 10` frustum. -/
def createCameraObj (uid : Nat) (cc : ThreeCameraComponent) : CameraObj :=
  match cc.cameraType with
  | .perspective =>
    { uid := uid, desc := .perspective cc.fov cc.aspect cc.near cc.far,
      position := ⟨0, 0, 0⟩, rotation := EVec3.zero }
  | .orthographic =>
    { uid := uid,
      desc := .orthographic (-(10 * cc.aspect)) (10 * cc.aspect) 10 (-10)
        cc.near cc.far,
      position := ⟨0, 0, 0⟩, rotation := EVec3.zero }

/-- `_updateMeshTransform`: copy position and scale, rotation in radians. -/
def updateMeshTransform (mesh : MeshObj) (transform : TransformComponent) :
    MeshObj :=
  { mesh with
    position := transform.position
    rotation := transform.rotation.toRad
    scale := transform.scale }

/-- `_updateLightTransform`: copy the position only. -/
def updateLightTransform (light : LightObj) (transform : TransformComponent) :
    LightObj :=
  { light with position := transform.position }

/-- `_updateCameraTransform`: copy position, rotation in radians. -/
def updateCameraTransform (camera : CameraObj) (transform : TransformComponent) :
    CameraObj :=
  { camera with
    position := transform.position
    rotation := transform.rotation.toRad }

/-- Value of a hexadecimal digit character, else `none`. -/
def hexDigitVal (c : Char) : Option Nat :=
  let n := c.toNat
  if 48 ≤ n ∧ n ≤ 57 then some (n - 48)
  else if 97 ≤ n ∧ n ≤ 102 then some (n - 87)
  else if 65 ≤ n ∧ n ≤ 70 then some (n - 55)
  else none

/-- Greedy hexadecimal digits, stopping at the first non-digit. -/
def parseHexAux : List Char → Nat → Nat
  | [], acc => acc
  | c :: cs, acc =>
    match hexDigitVal c with
    | some d => parseHexAux cs (acc * 16 + d)
    | none => acc

/-- Greedy decimal digits, stopping at the first non-digit. -/
def parseDecAux : List Char → Nat → Nat
  | [], acc => acc
  | c :: cs, acc =>
    if c.isDigit then parseDecAux cs (acc * 10 + (c.toNat - 48))
    else acc

/-- JavaScript `parseInt(s)` on the strings this system feeds it: a `0x`/`0X`
prefix selects hexadecimal, otherwise decimal; `none` models `NaN`.  (Leading
whitespace and signs never occur on color strings and are not modelled.) -/
def parseIntJs (s : String) : Option Nat :=
  match s.toList with
  | '0' :: 'x' :: c :: rest => (hexDigitVal c).map (fun d => parseHexAux rest d)
  | '0' :: 'X' :: c :: rest => (hexDigitVal c).map (fun d => parseHexAux rest d)
  | c :: rest => if c.isDigit then some (parseDecAux rest (c.toNat - 48)) else none
  | [] => none

/-- `s.replace('#', '0x')`: JavaScript replaces the first occurrence only. -/
def replaceFirstHashAux : List Char → List Char
  | [] => []
  | c :: cs => if c = '#' then '0' :: 'x' :: cs else c :: replaceFirstHashAux cs

/-- `parseInt(lightComp.color.replace('#', '0x'))` from
`_updateLightProperties`. -/
def parseColorHex (s : String) : Option Nat :=
  parseIntJs (String.mk (replaceFirstHashAux s.toList))

/-- `_updateLightProperties`: re-set color (via `setHex(parseInt(...))`) and
intensity; `castShadow` is an `Object3D` field, so the `'castShadow' in light`
check passes for every light class and the flag is copied unconditionally. -/
def updateLightProperties (light : LightObj) (lc : ThreeLightComponent) :
    LightObj :=
  { light with
    color := .fromHex (parseColorHex lc.color)
    intensity := lc.intensity
    castShadow := lc.castShadow }

/-- `_updateMeshMaterial`: build the new material from the component, dispose
the previously attached one, then assign the new one. -/
def updateMeshMaterial (st : RenderState) (mesh : MeshObj)
    (matc : ThreeMaterialComponent) : RenderState × MeshObj :=
  let newMaterial := createMaterial (some matc)
  let st1 := { st with
    disposedMaterials := st.disposedMaterials ++ [mesh.material.1],
    nextUid := st.nextUid + 1 }
  (st1, { mesh with material := (st.nextUid, newMaterial) })

/-- `_updateMeshGeometry`: build the new geometry, dispose the old, assign. -/
def updateMeshGeometry (st : RenderState) (mesh : MeshObj)
    (geoc : ThreeGeometryComponent) : RenderState × MeshObj :=
  let newGeometry := createGeometry (some geoc)
  let st1 := { st with
    disposedGeometries := st.disposedGeometries ++ [mesh.geometry.1],
    nextUid := st.nextUid + 1 }
  (st1, { mesh with geometry := (st.nextUid, newGeometry) })

/-- `_createMesh`: geometry and material from the (possibly absent)
components, a shadow-casting/receiving mesh tagged with the entity id, added
to the scene. -/
def createMesh (st : RenderState) (e : Entity)
    (matC : Option ThreeMaterialComponent)
    (geoC : Option ThreeGeometryComponent) : RenderState × MeshObj :=
  let mesh : MeshObj :=
    { uid := st.nextUid + 2,
      geometry := (st.nextUid, createGeometry geoC),
      material := (st.nextUid + 1, createMaterial matC),
      position := ⟨0, 0, 0⟩, rotation := EVec3.zero, scale := ⟨1, 1, 1⟩,
      castShadow := true, receiveShadow := true, userDataEntityId := e.id }
  ({ st with nextUid := st.nextUid + 3, scene := st.scene ++ [mesh.uid] }, mesh)

/-- Fault injection for the wrapped library: per call site and per entity id,
whether the underlying Three.js call throws when reached. -/
structure FailEnv where
  failCreateMesh : Nat → Bool
  failMeshTransform : Nat → Bool
  failMaterialUpdate : Nat → Bool
  failGeometryUpdate : Nat → Bool
  failCreateLight : Nat → Bool
  failLightTransform : Nat → Bool
  failLightProps : Nat → Bool
  failCreateCamera : Nat → Bool
  failCameraTransform : Nat → Bool

/-- The environment in which no library call ever throws. -/
def noFail : FailEnv :=
  ⟨fun _ => false, fun _ => false, fun _ => false, fun _ => false,
   fun _ => false, fun _ => false, fun _ => false, fun _ => false,
   fun _ => false⟩

/-- The `console.error` of a per-entity catch block. -/
def logError (st : RenderState) (msg : String) : RenderState :=
  { st with errorLog := st.errorLog ++ [msg] }

/-- A per-entity catch block: a normal result passes through, a thrown error
is logged against the entity and execution resumes with the state reached at
the moment of the throw. -/
def caught (r : Except (RenderState × Entity) (RenderState × Entity))
    (msg : String) : RenderState × Entity :=
  match r with
  | .ok p => p
  | .error p => (logError p.1 msg, p.2)

/-- Message logged by the catch block of `_processMeshEntity`. -/
def meshErrorMsg (id : Nat) : String :=
  "Error processing mesh entity " ++ toString id

/-- Message logged by the catch block of `_processLightEntity`. -/
def lightErrorMsg (id : Nat) : String :=
  "Error processing light entity " ++ toString id

/-- Message logged by the catch block of `_processCameraEntity`. -/
def cameraErrorMsg (id : Nat) : String :=
  "Error processing camera entity " ++ toString id

/-- Tail of the `_processMeshEntity` try block: the geometry dirty-flag
update, with the entity reassembled from the current mesh, material component
and geometry component.  `Except.error` carries the state at the moment of
the throw. -/
def meshGeometryPhase (env : FailEnv) (e : Entity)
    (meshComp1 : ThreeMeshComponent) (matC : Option ThreeMaterialComponent)
    (st : RenderState) (m : MeshObj) :
    Except (RenderState × Entity) (RenderState × Entity) :=
  let withMesh := fun (mm : MeshObj) (gC : Option ThreeGeometryComponent) =>
    { e with
      meshC := some { meshComp1 with mesh := some mm }
      materialC := matC
      geometryC := gC }
  match e.geometryC with
  | some geoc =>
    if geoc.needsUpdate then
      if env.failGeometryUpdate e.id then .error (st, withMesh m (some geoc))
      else
        let r := updateMeshGeometry st m geoc
        .ok (r.1, withMesh r.2 (some { geoc with needsUpdate := false }))
    else .ok (st, withMesh m (some geoc))
  | none => .ok (st, withMesh m none)

/-- Tail of the `_processMeshEntity` try block after the lazy-creation step:
the `if (meshComp.mesh)` guard, the transform sync, and the material phase
(which tail-calls `meshGeometryPhase`). -/
def processMeshBodyRest (env : FailEnv) (st1 : RenderState) (e : Entity)
    (transform : TransformComponent) (meshComp1 : ThreeMeshComponent) :
    Except (RenderState × Entity) (RenderState × Entity) :=
  match meshComp1.mesh with
  | none => .ok (st1, { e with meshC := some meshComp1 })
  | some m =>
    if env.failMeshTransform e.id then
      .error (st1, { e with meshC := some meshComp1 })
    else
      let m1 := updateMeshTransform m transform
      match e.materialC with
      | some matc =>
        if matc.needsUpdate then
          if env.failMaterialUpdate e.id then
            .error (st1, { e with meshC := some { meshComp1 with mesh := some m1 } })
          else
            let r := updateMeshMaterial st1 m1 matc
            meshGeometryPhase env e meshComp1
              (some { matc with needsUpdate := false }) r.1 r.2
        else meshGeometryPhase env e meshComp1 (some matc) st1 m1
      | none => meshGeometryPhase env e meshComp1 none st1 m1

/-- Body of the `_processMeshEntity` try block: lazily create the mesh, then
run the rest of the block.  `Except.error` carries the partially mutated
state at the throw. -/
def processMeshBody (env : FailEnv) (st : RenderState) (e : Entity)
    (transform : TransformComponent) (meshComp : ThreeMeshComponent) :
    Except (RenderState × Entity) (RenderState × Entity) :=
  match meshComp.mesh with
  | none =>
    if env.failCreateMesh e.id then .error (st, e)
    else
      let r := createMesh st e e.materialC e.geometryC
      processMeshBodyRest env r.1 e transform { meshComp with mesh := some r.2 }
  | some _ => processMeshBodyRest env st e transform meshComp

/-- `_processMeshEntity`: the component guard, the try body, and the catch
block that logs the error and lets the walk continue. -/
def processMeshEntity (env : FailEnv) (st : RenderState) (e : Entity) :
    RenderState × Entity :=
  match e.transform, e.meshC with
  | some transform, some meshComp =>
    caught (processMeshBody env st e transform meshComp) (meshErrorMsg e.id)
  | _, _ => (st, e)

/-- Tail of the `_processLightEntity` try block after the lazy-creation
step: the `if (lightComp.light)` guard, transform sync and dirty-flag
property update. -/
def processLightBodyRest (env : FailEnv) (st1 : RenderState) (e : Entity)
    (transform : TransformComponent) (lightComp1 : ThreeLightComponent) :
    Except (RenderState × Entity) (RenderState × Entity) :=
  match lightComp1.light with
    | none => .ok (st1, { e with lightC := some lightComp1 })
    | some l =>
      if env.failLightTransform e.id then
        .error (st1, { e with lightC := some lightComp1 })
      else
        let l1 := updateLightTransform l transform
        if lightComp1.needsUpdate then
          if env.failLightProps e.id then
            .error (st1, { e with lightC := some { lightComp1 with light := some l1 } })
          else
            let l2 := updateLightProperties l1 lightComp1
            let lightComp2 := { lightComp1 with light := some l2, needsUpdate := false }
            .ok (st1, { e with lightC := some lightComp2 })
        else
          .ok (st1, { e with lightC := some { lightComp1 with light := some l1 } })

/-- Body of the `_processLightEntity` try block: lazily create the light
(adding it to the scene), then run the rest of the block. -/
def processLightBody (env : FailEnv) (opts : SysOptions) (st : RenderState)
    (e : Entity) (transform : TransformComponent)
    (lightComp : ThreeLightComponent) :
    Except (RenderState × Entity) (RenderState × Entity) :=
  match lightComp.light with
  | none =>
    if env.failCreateLight e.id then .error (st, e)
    else
      let lobj := createLightObj opts st.nextUid lightComp
      processLightBodyRest env
        { st with nextUid := st.nextUid + 1, scene := st.scene ++ [lobj.uid] }
        e transform { lightComp with light := some lobj }
  | some _ => processLightBodyRest env st e transform lightComp

/-- `_processLightEntity`: guard, try body, catch-and-log. -/
def processLightEntity (env : FailEnv) (opts : SysOptions) (st : RenderState)
    (e : Entity) : RenderState × Entity :=
  match e.transform, e.lightC with
  | some transform, some lightComp =>
    caught (processLightBody env opts st e transform lightComp) (lightErrorMsg e.id)
  | _, _ => (st, e)

/-- Tail of the `_processCameraEntity` try block after the lazy-creation
step: the `if (cameraComp.camera)` guard, transform sync, and the
`this.camera` assignment. -/
def processCameraBodyRest (env : FailEnv) (st1 : RenderState) (e : Entity)
    (transform : TransformComponent) (cameraComp1 : ThreeCameraComponent) :
    Except (RenderState × Entity) (RenderState × Entity) :=
  match cameraComp1.camera with
    | none => .ok (st1, { e with cameraC := some cameraComp1 })
    | some c =>
      if env.failCameraTransform e.id then
        .error (st1, { e with cameraC := some cameraComp1 })
      else
        let c1 := updateCameraTransform c transform
        .ok ({ st1 with camera := .entityCamera c1 },
             { e with cameraC := some { cameraComp1 with camera := some c1 } })

/-- Body of the `_processCameraEntity` try block: lazily create the camera
(never added to the scene), then run the rest of the block. -/
def processCameraBody (env : FailEnv) (st : RenderState) (e : Entity)
    (transform : TransformComponent) (cameraComp : ThreeCameraComponent) :
    Except (RenderState × Entity) (RenderState × Entity) :=
  match cameraComp.camera with
  | none =>
    if env.failCreateCamera e.id then .error (st, e)
    else
      let cobj := createCameraObj st.nextUid cameraComp
      processCameraBodyRest env { st with nextUid := st.nextUid + 1 }
        e transform { cameraComp with camera := some cobj }
  | some _ => processCameraBodyRest env st e transform cameraComp

/-- `_processCameraEntity`: guard, try body, catch-and-log. -/
def processCameraEntity (env : FailEnv) (st : RenderState) (e : Entity) :
    RenderState × Entity :=
  match e.transform, e.cameraC with
  | some transform, some cameraComp =>
    caught (processCameraBody env st e transform cameraComp) (cameraErrorMsg e.id)
  | _, _ => (st, e)

/-- `_processMeshEntities`: the filtered entities are processed in order; the
in-place component mutation of the source becomes positional replacement. -/
def processMeshEntities (env : FailEnv) : RenderState → List Entity →
    RenderState × List Entity
  | st, [] => (st, [])
  | st, e :: rest =>
    let r := if meshQualifies e then processMeshEntity env st e else (st, e)
    let rr := processMeshEntities env r.1 rest
    (rr.1, r.2 :: rr.2)

/-- `_processLightEntities`: same shape as the mesh walk. -/
def processLightEntities (env : FailEnv) (opts : SysOptions) :
    RenderState → List Entity → RenderState × List Entity
  | st, [] => (st, [])
  | st, e :: rest =>
    let r := if lightQualifies e then processLightEntity env opts st e else (st, e)
    let rr := processLightEntities env opts r.1 rest
    (rr.1, r.2 :: rr.2)

/-- `_processCameraEntities`: only `cameraEntities[0]` — the first qualifying
entity in world order — is processed; everything after it is untouched. -/
def processCameraEntities (env : FailEnv) : RenderState → List Entity →
    RenderState × List Entity
  | st, [] => (st, [])
  | st, e :: rest =>
    if cameraQualifies e then
      let r := processCameraEntity env st e
      (r.1, r.2 :: rest)
    else
      let rr := processCameraEntities env st rest
      (rr.1, e :: rr.2)

/-- `ThreeRenderSystem.update`: the initialization guard, the frame counter,
the three entity walks, and `_render()` (which changes no model state).  The
`entities` and `deltaTime` parameters are unused by the source, which reads
`this.world`.  The result type is `Except` because the outer catch rethrows:
an error reaching `update`'s own try block would escape. -/
def update (env : FailEnv) (_entitiesArg : List Entity) (_deltaTime : ℚ)
    (sys : SysState) : Except String SysState :=
  match sys.world with
  | none => .ok sys
  | some worldEntities =>
    if !sys.isInitialized then .ok sys
    else
      let r1 := processMeshEntities env sys.render worldEntities
      let r2 := processLightEntities env sys.options r1.1 r1.2
      let r3 := processCameraEntities env r2.1 r2.2
      .ok { sys with
        frameCount := sys.frameCount + 1
        render := r3.1
        world := some r3.2 }

/-- The geometry factory as the specification claim words it: each enumerated
`geometryType` goes to the corresponding constructor "called with the
configuration's parameters, substituting the documented per-parameter default
for every absent parameter" — i.e. a present parameter is always passed
through, and only a missing key falls back to the default.  Missing component
or unlisted type (including `custom`) give the unit box. -/
def createGeometrySpecC4 (geometryComp : Option ThreeGeometryComponent) :
    GeometryDesc :=
  match geometryComp with
  | none => .boxG 1 1 1
  | some gc =>
    let p := gc.parameters
    let param := fun (k : String) (d : ℚ) => (getParam p k).getD d
    if gc.geometryType = "box" then
      .boxG (param "width" 1) (param "height" 1) (param "depth" 1)
    else if gc.geometryType = "sphere" then
      .sphereG (param "radius" (1 / 2)) (param "widthSegments" 16)
        (param "heightSegments" 12)
    else if gc.geometryType = "plane" then
      .planeG (param "width" 1) (param "height" 1)
    else if gc.geometryType = "cylinder" then
      .cylinderG (param "radiusTop" (1 / 2)) (param "radiusBottom" (1 / 2))
        (param "height" 1) (param "radialSegments" 8)
    else if gc.geometryType = "cone" then
      .coneG (param "radius" (1 / 2)) (param "height" 1)
        (param "radialSegments" 8)
    else if gc.geometryType = "torus" then
      .torusG (param "radius" (2 / 5)) (param "tube" (1 / 5))
        (param "radialSegments" 8) (param "tubularSegments" 6)
    else
      .boxG 1 1 1

/-- A parameter fetch following the amended claim wording: the documented
default is substituted for every absent or zero-valued (falsy) parameter. -/
def amendedParam (p : List (String × ℚ)) (k : String) (d : ℚ) : ℚ :=
  match getParam p k with
  | none => d
  | some v => if v = 0 then d else v

/-- The geometry factory as the amended claim words it: constructor arguments
come from `amendedParam`, the unit box covers a missing component and every
type outside the six-entry switch. -/
def createGeometryAmendedC4 (geometryComp : Option ThreeGeometryComponent) :
    GeometryDesc :=
  match geometryComp with
  | none => .boxG 1 1 1
  | some gc =>
    let p := gc.parameters
    if gc.geometryType = "box" then
      .boxG (amendedParam p "width" 1) (amendedParam p "height" 1)
        (amendedParam p "depth" 1)
    else if gc.geometryType = "sphere" then
      .sphereG (amendedParam p "radius" (1 / 2)) (amendedParam p "widthSegments" 16)
        (amendedParam p "heightSegments" 12)
    else if gc.geometryType = "plane" then
      .planeG (amendedParam p "width" 1) (amendedParam p "height" 1)
    else if gc.geometryType = "cylinder" then
      .cylinderG (amendedParam p "radiusTop" (1 / 2))
        (amendedParam p "radiusBottom" (1 / 2)) (amendedParam p "height" 1)
        (amendedParam p "radialSegments" 8)
    else if gc.geometryType = "cone" then
      .coneG (amendedParam p "radius" (1 / 2)) (amendedParam p "height" 1)
        (amendedParam p "radialSegments" 8)
    else if gc.geometryType = "torus" then
      .torusG (amendedParam p "radius" (2 / 5)) (amendedParam p "tube" (1 / 5))
        (amendedParam p "radialSegments" 8) (amendedParam p "tubularSegments" 6)
    else
      .boxG 1 1 1

/-- Names of the six exported component classes. -/
inductive ComponentKind
  | transformC
  | meshC
  | materialC
  | geometryC
  | lightC
  | cameraC
deriving Repr, DecidableEq

/-- Whether the named component class declares a `needsUpdate` field, read
off the class declarations in `src/components/*.ts`: every class does except
`TransformComponent`, which declares only `position`, `rotation`, `scale`
(see the `TransformComponent` structure above). -/
def componentHasDirtyFlag : ComponentKind → Bool
  | .transformC => false
  | .meshC => true
  | .materialC => true
  | .geometryC => true
  | .lightC => true
  | .cameraC => true

/-- A transform used by the concrete witnesses (integral values only). -/
def wTransform : TransformComponent := ⟨⟨1, 2, 3⟩, ⟨0, 0, 0⟩, ⟨1, 1, 1⟩⟩

/-- A concrete live mesh used by the witnesses. -/
def wMesh : MeshObj :=
  { uid := 5, geometry := (3, .boxG 1 1 1), material := (4, .meshStandardHex 0x4CAF50),
    position := ⟨0, 0, 0⟩, rotation := EVec3.zero, scale := ⟨1, 1, 1⟩,
    castShadow := true, receiveShadow := true, userDataEntityId := 9 }

/-- Entity with an already-created mesh. -/
def wEntityMeshSome : Entity :=
  ⟨9, true, some wTransform, some ⟨some wMesh, false⟩, none, none, none, none⟩

/-- Entity with a null mesh reference. -/
def wEntityMeshNone : Entity :=
  ⟨9, true, some wTransform, some ⟨none, false⟩, none, none, none, none⟩

/-- A concrete live light used by the witnesses. -/
def wLight : LightObj :=
  { uid := 6, kind := .directional, color := .fromString "#ffffff",
    groundColor := none, intensity := 1, castShadow := false,
    position := ⟨0, 0, 0⟩, rotation := EVec3.zero }

/-- Entity with an already-created light. -/
def wEntityLightSome : Entity :=
  ⟨8, true, some wTransform, none, none, none,
   some ⟨.directional, "#ffffff", 1, false, some wLight, false⟩, none⟩

/-- Entity with a null light reference. -/
def wEntityLightNone : Entity :=
  ⟨8, true, some wTransform, none, none, none,
   some ⟨.directional, "#ffffff", 1, false, none, false⟩, none⟩

/-- A concrete live camera used by the witnesses. -/
def wCamera : CameraObj :=
  { uid := 7, desc := .perspective 75 1 1 1000,
    position := ⟨0, 0, 0⟩, rotation := EVec3.zero }

/-- Entity with an already-created camera. -/
def wEntityCameraSome : Entity :=
  ⟨4, true, some wTransform, none, none, none, none,
   some ⟨.perspective, 75, 1, 1, 1000, some wCamera, false⟩⟩

/-- Entity with a null camera reference. -/
def wEntityCameraNone : Entity :=
  ⟨4, true, some wTransform, none, none, none, none,
   some ⟨.perspective, 75, 1, 1, 1000, none, false⟩⟩

/-- Fault environment for the C3 witness: the transform sync of every mesh
and the creation of every light and camera throw. -/
def wFailEnv : FailEnv :=
  { noFail with
    failMeshTransform := fun _ => true
    failCreateLight := fun _ => true
    failCreateCamera := fun _ => true }

/-- An entity that never qualifies for the camera walk. -/
def wEntityPlain : Entity := ⟨3, true, some wTransform, none, none, none, none, none⟩

/-- A camera component with a null camera reference. -/
def cexCamComp : ThreeCameraComponent := ⟨.perspective, 75, 1, 1, 1000, none, false⟩

/-- First active camera entity of the counterexample world. -/
def cexE1 : Entity := ⟨1, true, some wTransform, none, none, none, none, some cexCamComp⟩

/-- Second active camera entity of the counterexample world. -/
def cexE2 : Entity := ⟨2, true, some wTransform, none, none, none, none, some cexCamComp⟩

/-- An initialized system over the two-camera world. -/
def cexSys : SysState := onAddedToWorld (mkSystem defaultOptions) [cexE1, cexE2]

/-- A render state with a counter strictly above every uid in `wMesh`. -/
def wState10 : RenderState := { initialRenderState with nextUid := 10 }

/-- A dirty material component. -/
def wMaterialDirty : ThreeMaterialComponent :=
  ⟨.standard, "#ff0000", 0, 1, "#000000", 0, false, 1, false, none, true⟩

/-- A clean material component. -/
def wMaterialClean : ThreeMaterialComponent :=
  ⟨.standard, "#ff0000", 0, 1, "#000000", 0, false, 1, false, none, false⟩

/-- A dirty geometry component. -/
def wGeometryDirty : ThreeGeometryComponent := ⟨"box", [], true⟩

/-- A clean geometry component. -/
def wGeometryClean : ThreeGeometryComponent := ⟨"box", [], false⟩

/-- Mesh entity with a dirty material component. -/
def wEntityMatDirty : Entity :=
  ⟨9, true, some wTransform, some ⟨some wMesh, false⟩, some wMaterialDirty,
   none, none, none⟩

/-- Mesh entity with a clean material component. -/
def wEntityMatClean : Entity :=
  ⟨9, true, some wTransform, some ⟨some wMesh, false⟩, some wMaterialClean,
   none, none, none⟩

/-- Mesh entity with a dirty geometry component. -/
def wEntityGeoDirty : Entity :=
  ⟨9, true, some wTransform, some ⟨some wMesh, false⟩, none,
   some wGeometryDirty, none, none⟩

/-- Mesh entity with a clean geometry component. -/
def wEntityGeoClean : Entity :=
  ⟨9, true, some wTransform, some ⟨some wMesh, false⟩, none,
   some wGeometryClean, none, none⟩

/-! Helper lemmas shared by the claim theorems. -/

theorem jsParam_eq_amendedParam (p : List (String × ℚ)) (k : String) (d : ℚ) :
    jsParam p k d = amendedParam p k d := by
  unfold jsParam amendedParam jsOrQ
  cases getParam p k <;> rfl

theorem materialFlagReset_eq_self (matc : ThreeMaterialComponent)
    (h : matc.needsUpdate = false) :
    { matc with needsUpdate := false } = matc := by
  cases matc
  simp_all

theorem geometryFlagReset_eq_self (geoc : ThreeGeometryComponent)
    (h : geoc.needsUpdate = false) :
    { geoc with needsUpdate := false } = geoc := by
  cases geoc
  simp_all

theorem caught_ok (p : RenderState × Entity) (msg : String) :
    caught (.ok p) msg = p := rfl

theorem caught_error (p : RenderState × Entity) (msg : String) :
    caught (.error p) msg = (logError p.1 msg, p.2) := rfl

theorem createLightObj_uid (opts : SysOptions) (u : Nat)
    (lc : ThreeLightComponent) : (createLightObj opts u lc).uid = u := by
  cases h : lc.lightType <;> simp [createLightObj, h]

theorem createLightObj_position (opts : SysOptions) (u : Nat)
    (lc : ThreeLightComponent) :
    (createLightObj opts u lc).position = ⟨0, 0, 0⟩ := by
  cases h : lc.lightType <;> simp [createLightObj, h]

theorem createLightObj_rotation (opts : SysOptions) (u : Nat)
    (lc : ThreeLightComponent) :
    (createLightObj opts u lc).rotation = EVec3.zero := by
  cases h : lc.lightType <;> simp [createLightObj, h]

theorem createCameraObj_uid (u : Nat) (cc : ThreeCameraComponent) :
    (createCameraObj u cc).uid = u := by
  cases h : cc.cameraType <;> simp [createCameraObj, h]

theorem processMeshEntities_append (env : FailEnv) (st : RenderState)
    (l1 l2 : List Entity) :
    processMeshEntities env st (l1 ++ l2) =
      ((processMeshEntities env (processMeshEntities env st l1).1 l2).1,
       (processMeshEntities env st l1).2 ++
         (processMeshEntities env (processMeshEntities env st l1).1 l2).2) := by
  induction l1 generalizing st with
  | nil => simp [processMeshEntities]
  | cons a rest ih => simp [processMeshEntities, ih]

theorem processCameraEntities_first (env : FailEnv) (st : RenderState)
    (l1 : List Entity) (e : Entity) (l2 : List Entity)
    (h1 : ∀ e', e' ∈ l1 → cameraQualifies e' = false)
    (he : cameraQualifies e = true) :
    processCameraEntities env st (l1 ++ e :: l2) =
      ((processCameraEntity env st e).1,
       l1 ++ (processCameraEntity env st e).2 :: l2) := by
  induction l1 with
  | nil => simp [processCameraEntities, he]
  | cons a rest ih =>
    have ha := h1 a (by simp)
    simp [processCameraEntities, ha,
      ih (fun e' he' => h1 e' (by simp [he']))]

theorem processCameraEntities_none_qual (env : FailEnv) (st : RenderState)
    (l : List Entity) (h : ∀ e', e' ∈ l → cameraQualifies e' = false) :
    processCameraEntities env st l = (st, l) := by
  induction l with
  | nil => simp [processCameraEntities]
  | cons a rest ih =>
    have ha := h a (by simp)
    simp [processCameraEntities, ha,
      ih (fun e' he' => h e' (by simp [he']))]

theorem processMeshEntities_getElem_not_qual (env : FailEnv) :
    ∀ (st : RenderState) (l : List Entity) (i : ℕ) (e : Entity),
      l[i]? = some e → meshQualifies e = false →
      ((processMeshEntities env st l).2)[i]? = some e := by
  intro st l
  induction l generalizing st with
  | nil => intro i e h _; simp at h
  | cons a rest ih =>
    intro i e h hq
    cases i with
    | zero =>
      simp at h
      subst h
      simp [processMeshEntities, hq]
    | succ n =>
      simp at h
      simp [processMeshEntities]
      exact ih _ n e h hq

theorem processMeshEntities_getElem_qual (env : FailEnv) :
    ∀ (st : RenderState) (l : List Entity) (i : ℕ) (e : Entity),
      l[i]? = some e → meshQualifies e = true →
      ∃ st', ((processMeshEntities env st l).2)[i]? =
        some (processMeshEntity env st' e).2 := by
  intro st l
  induction l generalizing st with
  | nil => intro i e h _; simp at h
  | cons a rest ih =>
    intro i e h hq
    cases i with
    | zero =>
      simp at h
      subst h
      exact ⟨st, by simp [processMeshEntities, hq]⟩
    | succ n =>
      simp at h
      obtain ⟨st', hst⟩ :=
        ih (if meshQualifies a = true then processMeshEntity env st a
            else (st, a)).1 n e h hq
      exact ⟨st', by simp [processMeshEntities, hst]⟩

theorem processLightEntities_getElem_not_qual (env : FailEnv) (opts : SysOptions) :
    ∀ (st : RenderState) (l : List Entity) (i : ℕ) (e : Entity),
      l[i]? = some e → lightQualifies e = false →
      ((processLightEntities env opts st l).2)[i]? = some e := by
  intro st l
  induction l generalizing st with
  | nil => intro i e h _; simp at h
  | cons a rest ih =>
    intro i e h hq
    cases i with
    | zero =>
      simp at h
      subst h
      simp [processLightEntities, hq]
    | succ n =>
      simp at h
      simp [processLightEntities]
      exact ih _ n e h hq

theorem processLightEntities_getElem_qual (env : FailEnv) (opts : SysOptions) :
    ∀ (st : RenderState) (l : List Entity) (i : ℕ) (e : Entity),
      l[i]? = some e → lightQualifies e = true →
      ∃ st', ((processLightEntities env opts st l).2)[i]? =
        some (processLightEntity env opts st' e).2 := by
  intro st l
  induction l generalizing st with
  | nil => intro i e h _; simp at h
  | cons a rest ih =>
    intro i e h hq
    cases i with
    | zero =>
      simp at h
      subst h
      exact ⟨st, by simp [processLightEntities, hq]⟩
    | succ n =>
      simp at h
      obtain ⟨st', hst⟩ :=
        ih (if lightQualifies a = true then processLightEntity env opts st a
            else (st, a)).1 n e h hq
      exact ⟨st', by simp [processLightEntities, hst]⟩

theorem processCameraEntities_getElem_not_qual (env : FailEnv) :
    ∀ (st : RenderState) (l : List Entity) (i : ℕ) (e : Entity),
      l[i]? = some e → cameraQualifies e = false →
      ((processCameraEntities env st l).2)[i]? = some e := by
  intro st l
  induction l generalizing st with
  | nil => intro i e h _; simp at h
  | cons a rest ih =>
    intro i e h hq
    cases ha : cameraQualifies a with
    | true =>
      cases i with
      | zero => simp at h; subst h; simp_all
      | succ n =>
        simp at h
        simp [processCameraEntities, ha]
        exact h
    | false =>
      cases i with
      | zero => simp at h; subst h; simp [processCameraEntities, ha]
      | succ n =>
        simp at h
        simp [processCameraEntities, ha]
        exact ih st n e h hq

theorem not_any_qualifies (e : Entity)
    (h : e.active = false ∨ e.transform = none ∨
      (e.meshC = none ∧ e.lightC = none ∧ e.cameraC = none)) :
    meshQualifies e = false ∧ lightQualifies e = false ∧
      cameraQualifies e = false := by
  rcases h with h | h | ⟨h1, h2, h3⟩
  · simp [meshQualifies, lightQualifies, cameraQualifies, h]
  · simp [meshQualifies, lightQualifies, cameraQualifies, h]
  · simp [meshQualifies, lightQualifies, cameraQualifies, h1, h2, h3]

/-! Theorems for the specification claims. -/

/-- C1: for a processed entity the underlying renderer object is created only
when the component's reference is null and is then added to the scene exactly
once; an already-created object is never re-created or replaced (its identity
`uid` is preserved, under every fault environment) and nothing more is added
to the scene for it.  Cameras are never added to the scene at all.  The three
object kinds are covered in order mesh (update, then lazy creation), light,
camera. -/
theorem creation_once_update_after :
    (∀ (env : FailEnv) (st : RenderState) (e : Entity)
        (t : TransformComponent) (mc : ThreeMeshComponent) (m : MeshObj),
      e.transform = some t → e.meshC = some mc → mc.mesh = some m →
      ∃ mc' m', (processMeshEntity env st e).2.meshC = some mc' ∧
        mc'.mesh = some m' ∧ m'.uid = m.uid ∧
        (processMeshEntity env st e).1.scene = st.scene) ∧
    (∀ (st : RenderState) (e : Entity) (t : TransformComponent)
        (mc : ThreeMeshComponent),
      e.transform = some t → e.meshC = some mc → mc.mesh = none →
      ∃ mc' m', (processMeshEntity noFail st e).2.meshC = some mc' ∧
        mc'.mesh = some m' ∧ m'.uid = st.nextUid + 2 ∧
        (processMeshEntity noFail st e).1.scene = st.scene ++ [st.nextUid + 2]) ∧
    (∀ (env : FailEnv) (opts : SysOptions) (st : RenderState) (e : Entity)
        (t : TransformComponent) (lc : ThreeLightComponent) (l : LightObj),
      e.transform = some t → e.lightC = some lc → lc.light = some l →
      ∃ lc' l', (processLightEntity env opts st e).2.lightC = some lc' ∧
        lc'.light = some l' ∧ l'.uid = l.uid ∧
        (processLightEntity env opts st e).1.scene = st.scene) ∧
    (∀ (opts : SysOptions) (st : RenderState) (e : Entity)
        (t : TransformComponent) (lc : ThreeLightComponent),
      e.transform = some t → e.lightC = some lc → lc.light = none →
      ∃ lc' l', (processLightEntity noFail opts st e).2.lightC = some lc' ∧
        lc'.light = some l' ∧ l'.uid = st.nextUid ∧
        (processLightEntity noFail opts st e).1.scene = st.scene ++ [st.nextUid]) ∧
    (∀ (env : FailEnv) (st : RenderState) (e : Entity)
        (t : TransformComponent) (cc : ThreeCameraComponent) (c : CameraObj),
      e.transform = some t → e.cameraC = some cc → cc.camera = some c →
      ∃ cc' c', (processCameraEntity env st e).2.cameraC = some cc' ∧
        cc'.camera = some c' ∧ c'.uid = c.uid ∧
        (processCameraEntity env st e).1.scene = st.scene) ∧
    (∀ (st : RenderState) (e : Entity) (t : TransformComponent)
        (cc : ThreeCameraComponent),
      e.transform = some t → e.cameraC = some cc → cc.camera = none →
      ∃ cc' c', (processCameraEntity noFail st e).2.cameraC = some cc' ∧
        cc'.camera = some c' ∧ c'.uid = st.nextUid ∧
        (processCameraEntity noFail st e).1.scene = st.scene) := by
  refine ⟨?_, ?_, ?_, ?_, ?_, ?_⟩
  · intro env st e t mc m ht hm hmm
    simp only [processMeshEntity, processMeshBody, processMeshBodyRest,
      meshGeometryPhase, ht, hm, hmm, updateMeshMaterial, updateMeshTransform,
      updateMeshGeometry]
    repeat' split
    all_goals simp_all [caught_ok, caught_error, logError]
  · intro st e t mc ht hm hmm
    simp only [processMeshEntity, processMeshBody, processMeshBodyRest,
      meshGeometryPhase, ht, hm, hmm, createMesh, noFail, updateMeshMaterial,
      updateMeshTransform, updateMeshGeometry]
    repeat' split
    all_goals simp_all [caught_ok, caught_error, logError]
  · intro env opts st e t lc l ht hl hll
    simp only [processLightEntity, processLightBody, processLightBodyRest,
      ht, hl, hll, updateLightTransform, updateLightProperties]
    repeat' split
    all_goals simp_all [caught_ok, caught_error, logError]
  · intro opts st e t lc ht hl hll
    simp only [processLightEntity, processLightBody, processLightBodyRest,
      ht, hl, hll, noFail, updateLightTransform, updateLightProperties]
    repeat' split
    all_goals simp_all [caught_ok, caught_error, logError, createLightObj_uid]
  · intro env st e t cc c ht hc hcc
    simp only [processCameraEntity, processCameraBody, processCameraBodyRest,
      ht, hc, hcc, updateCameraTransform]
    repeat' split
    all_goals simp_all [caught_ok, caught_error, logError]
  · intro st e t cc ht hc hcc
    simp only [processCameraEntity, processCameraBody, processCameraBodyRest,
      ht, hc, hcc, noFail, updateCameraTransform]
    repeat' split
    all_goals simp_all [caught_ok, caught_error, logError, createCameraObj_uid]

/-- C2: for a processed mesh entity with an existing mesh, a material
component with `needsUpdate = true` makes the system build a new material
from the component's fields (a fresh object: its uid is the counter value,
distinct from the old one), dispose the previously attached material, and
reset the flag; with `needsUpdate = false` the attached material is left
untouched and nothing is disposed.  The same dichotomy holds for the
geometry component. -/
theorem dirty_flag_update_disposal :
    (∀ (st : RenderState) (e : Entity) (t : TransformComponent)
        (mc : ThreeMeshComponent) (m : MeshObj) (matc : ThreeMaterialComponent),
      e.transform = some t → e.meshC = some mc → mc.mesh = some m →
      e.materialC = some matc → matc.needsUpdate = true →
      m.material.1 < st.nextUid →
      ∃ mc' m', (processMeshEntity noFail st e).2.meshC = some mc' ∧
        mc'.mesh = some m' ∧
        m'.material.1 = st.nextUid ∧
        m'.material.2 = createMaterial (some matc) ∧
        m'.material.1 ≠ m.material.1 ∧
        (processMeshEntity noFail st e).1.disposedMaterials =
          st.disposedMaterials ++ [m.material.1] ∧
        (processMeshEntity noFail st e).2.materialC =
          some { matc with needsUpdate := false }) ∧
    (∀ (st : RenderState) (e : Entity) (t : TransformComponent)
        (mc : ThreeMeshComponent) (m : MeshObj) (matc : ThreeMaterialComponent),
      e.transform = some t → e.meshC = some mc → mc.mesh = some m →
      e.materialC = some matc → matc.needsUpdate = false →
      ∃ mc' m', (processMeshEntity noFail st e).2.meshC = some mc' ∧
        mc'.mesh = some m' ∧ m'.material = m.material ∧
        (processMeshEntity noFail st e).1.disposedMaterials =
          st.disposedMaterials ∧
        (processMeshEntity noFail st e).2.materialC = some matc) ∧
    (∀ (st : RenderState) (e : Entity) (t : TransformComponent)
        (mc : ThreeMeshComponent) (m : MeshObj) (geoc : ThreeGeometryComponent),
      e.transform = some t → e.meshC = some mc → mc.mesh = some m →
      e.geometryC = some geoc → geoc.needsUpdate = true →
      m.geometry.1 < st.nextUid →
      ∃ mc' m', (processMeshEntity noFail st e).2.meshC = some mc' ∧
        mc'.mesh = some m' ∧
        m'.geometry.2 = createGeometry (some geoc) ∧
        m'.geometry.1 ≠ m.geometry.1 ∧
        (processMeshEntity noFail st e).1.disposedGeometries =
          st.disposedGeometries ++ [m.geometry.1] ∧
        (processMeshEntity noFail st e).2.geometryC =
          some { geoc with needsUpdate := false }) ∧
    (∀ (st : RenderState) (e : Entity) (t : TransformComponent)
        (mc : ThreeMeshComponent) (m : MeshObj) (geoc : ThreeGeometryComponent),
      e.transform = some t → e.meshC = some mc → mc.mesh = some m →
      e.geometryC = some geoc → geoc.needsUpdate = false →
      ∃ mc' m', (processMeshEntity noFail st e).2.meshC = some mc' ∧
        mc'.mesh = some m' ∧ m'.geometry = m.geometry ∧
        (processMeshEntity noFail st e).1.disposedGeometries =
          st.disposedGeometries ∧
        (processMeshEntity noFail st e).2.geometryC = some geoc) := by
  refine ⟨?_, ?_, ?_, ?_⟩
  · intro st e t mc m matc ht hm hmm hmat hnu hfresh
    simp only [processMeshEntity, processMeshBody, processMeshBodyRest,
      meshGeometryPhase, ht, hm, hmm, hmat, hnu, noFail, updateMeshMaterial,
      updateMeshTransform, updateMeshGeometry]
    repeat' split
    all_goals simp_all [caught_ok, caught_error, logError]
    all_goals omega
  · intro st e t mc m matc ht hm hmm hmat hnu
    simp only [processMeshEntity, processMeshBody, processMeshBodyRest,
      meshGeometryPhase, ht, hm, hmm, hmat, hnu, noFail, updateMeshMaterial,
      updateMeshTransform, updateMeshGeometry]
    repeat' split
    all_goals simp_all [caught_ok, caught_error, logError]
  · intro st e t mc m geoc ht hm hmm hgeo hnu hfresh
    simp only [processMeshEntity, processMeshBody, processMeshBodyRest,
      meshGeometryPhase, ht, hm, hmm, hgeo, hnu, noFail, updateMeshMaterial,
      updateMeshTransform, updateMeshGeometry]
    repeat' split
    all_goals simp_all [caught_ok, caught_error, logError]
    all_goals omega
  · intro st e t mc m geoc ht hm hmm hgeo hnu
    simp only [processMeshEntity, processMeshBody, processMeshBodyRest,
      meshGeometryPhase, ht, hm, hmm, hgeo, hnu, noFail, updateMeshMaterial,
      updateMeshTransform, updateMeshGeometry]
    repeat' split
    all_goals simp_all [caught_ok, caught_error, logError]

/-- C6: on every processed entity the live object's fields are synchronized
from the `TransformComponent` — a mesh gets position and scale copied
componentwise and rotation converted from degrees to radians (each axis
multiplied by `π/180`: a `RadAngle` with coefficient `d / 180` stands for
`d * π / 180` radians); a camera gets position and rotation the same way;
a light gets only its position synchronized (its rotation, never written by
the system, is stated unchanged). -/
theorem transform_field_sync :
    (∀ (st : RenderState) (e : Entity) (t : TransformComponent)
        (mc : ThreeMeshComponent) (m : MeshObj),
      e.transform = some t → e.meshC = some mc → mc.mesh = some m →
      ∃ mc' m', (processMeshEntity noFail st e).2.meshC = some mc' ∧
        mc'.mesh = some m' ∧
        m'.position = t.position ∧ m'.scale = t.scale ∧
        m'.rotation = ⟨⟨t.rotation.x / 180⟩, ⟨t.rotation.y / 180⟩,
          ⟨t.rotation.z / 180⟩⟩) ∧
    (∀ (st : RenderState) (e : Entity) (t : TransformComponent)
        (cc : ThreeCameraComponent) (c : CameraObj),
      e.transform = some t → e.cameraC = some cc → cc.camera = some c →
      ∃ cc' c', (processCameraEntity noFail st e).2.cameraC = some cc' ∧
        cc'.camera = some c' ∧
        c'.position = t.position ∧
        c'.rotation = ⟨⟨t.rotation.x / 180⟩, ⟨t.rotation.y / 180⟩,
          ⟨t.rotation.z / 180⟩⟩) ∧
    (∀ (opts : SysOptions) (st : RenderState) (e : Entity)
        (t : TransformComponent) (lc : ThreeLightComponent) (l : LightObj),
      e.transform = some t → e.lightC = some lc → lc.light = some l →
      ∃ lc' l', (processLightEntity noFail opts st e).2.lightC = some lc' ∧
        lc'.light = some l' ∧
        l'.position = t.position ∧ l'.rotation = l.rotation) ∧
    (∀ (opts : SysOptions) (st : RenderState) (e : Entity)
        (t : TransformComponent) (lc : ThreeLightComponent) (l : LightObj),
      e.transform = some t → e.lightC = some lc → lc.light = some l →
      lc.needsUpdate = false →
      ∃ lc', (processLightEntity noFail opts st e).2.lightC = some lc' ∧
        lc'.light = some { l with position := t.position }) := by
  refine ⟨?_, ?_, ?_, ?_⟩
  · intro st e t mc m ht hm hmm
    simp only [processMeshEntity, processMeshBody, processMeshBodyRest,
      meshGeometryPhase, ht, hm, hmm, noFail, updateMeshMaterial,
      updateMeshTransform, updateMeshGeometry, Vec3.toRad, degToRad]
    repeat' split
    all_goals simp_all [caught_ok, caught_error, logError]
  · intro st e t cc c ht hc hcc
    simp only [processCameraEntity, processCameraBody, processCameraBodyRest,
      ht, hc, hcc, noFail, updateCameraTransform, Vec3.toRad, degToRad]
    repeat' split
    all_goals simp_all [caught_ok, caught_error, logError]
  · intro opts st e t lc l ht hl hll
    simp only [processLightEntity, processLightBody, processLightBodyRest,
      ht, hl, hll, noFail, updateLightTransform, updateLightProperties]
    repeat' split
    all_goals simp_all [caught_ok, caught_error, logError]
  · intro opts st e t lc l ht hl hll hnu
    simp only [processLightEntity, processLightBody, processLightBodyRest,
      ht, hl, hll, hnu, noFail, updateLightTransform, updateLightProperties]
    repeat' split
    all_goals simp_all [caught_ok, caught_error, logError]

/-- C3: per-entity error containment.  If the try-block body of a mesh,
light or camera entity throws (returns `Except.error` with the state at the
throw), the per-entity processor catches it, logs the per-entity message, and
returns normally; the entity walk is sequential composition (an error in one
entity never aborts the walk over the remaining entities); and `update`
always returns `Except.ok` — no error escapes the system's update call,
under every fault environment. -/
theorem per_entity_error_containment :
    (∀ (env : FailEnv) (st : RenderState) (e : Entity)
        (t : TransformComponent) (mc : ThreeMeshComponent)
        (r : RenderState × Entity),
      e.transform = some t → e.meshC = some mc →
      processMeshBody env st e t mc = .error r →
      processMeshEntity env st e =
        ({ r.1 with errorLog := r.1.errorLog ++ [meshErrorMsg e.id] }, r.2)) ∧
    (∀ (env : FailEnv) (opts : SysOptions) (st : RenderState) (e : Entity)
        (t : TransformComponent) (lc : ThreeLightComponent)
        (r : RenderState × Entity),
      e.transform = some t → e.lightC = some lc →
      processLightBody env opts st e t lc = .error r →
      processLightEntity env opts st e =
        ({ r.1 with errorLog := r.1.errorLog ++ [lightErrorMsg e.id] }, r.2)) ∧
    (∀ (env : FailEnv) (st : RenderState) (e : Entity)
        (t : TransformComponent) (cc : ThreeCameraComponent)
        (r : RenderState × Entity),
      e.transform = some t → e.cameraC = some cc →
      processCameraBody env st e t cc = .error r →
      processCameraEntity env st e =
        ({ r.1 with errorLog := r.1.errorLog ++ [cameraErrorMsg e.id] }, r.2)) ∧
    (∀ (env : FailEnv) (st : RenderState) (l1 l2 : List Entity),
      processMeshEntities env st (l1 ++ l2) =
        ((processMeshEntities env (processMeshEntities env st l1).1 l2).1,
         (processMeshEntities env st l1).2 ++
           (processMeshEntities env (processMeshEntities env st l1).1 l2).2)) ∧
    (∀ (env : FailEnv) (ents : List Entity) (dt : ℚ) (sys : SysState),
      ∃ sys', update env ents dt sys = .ok sys') := by
  refine ⟨?_, ?_, ?_, ?_, ?_⟩
  · intro env st e t mc r ht hm hb
    simp [processMeshEntity, ht, hm, hb, caught, logError]
  · intro env opts st e t lc r ht hl hb
    simp [processLightEntity, ht, hl, hb, caught, logError]
  · intro env st e t cc r ht hc hb
    simp [processCameraEntity, ht, hc, hb, caught, logError]
  · intro env st l1 l2
    exact processMeshEntities_append env st l1 l2
  · intro env ents dt sys
    unfold update
    cases hw : sys.world with
    | none => exact ⟨sys, rfl⟩
    | some l =>
      cases hinit : sys.isInitialized with
      | false => exact ⟨sys, rfl⟩
      | true => exact ⟨_, rfl⟩

/-- Witness for the C3 theorem: each hypothesis-bearing part applied at a
concrete entity under `wFailEnv`, plus `update` returning `ok` on a world
holding a failing entity. -/
theorem per_entity_error_containment_witness :
    processMeshEntity wFailEnv initialRenderState wEntityMeshSome =
      ({ initialRenderState with
          errorLog := initialRenderState.errorLog ++ [meshErrorMsg wEntityMeshSome.id] },
       wEntityMeshSome) ∧
    processLightEntity wFailEnv defaultOptions initialRenderState wEntityLightNone =
      ({ initialRenderState with
          errorLog := initialRenderState.errorLog ++ [lightErrorMsg wEntityLightNone.id] },
       wEntityLightNone) ∧
    processCameraEntity wFailEnv initialRenderState wEntityCameraNone =
      ({ initialRenderState with
          errorLog := initialRenderState.errorLog ++ [cameraErrorMsg wEntityCameraNone.id] },
       wEntityCameraNone) ∧
    (∃ sys', update wFailEnv [] 0
        (onAddedToWorld (mkSystem defaultOptions) [wEntityMeshSome]) = .ok sys') :=
  ⟨per_entity_error_containment.1 wFailEnv initialRenderState wEntityMeshSome
      wTransform ⟨some wMesh, false⟩ (initialRenderState, wEntityMeshSome)
      rfl rfl rfl,
   per_entity_error_containment.2.1 wFailEnv defaultOptions initialRenderState
      wEntityLightNone wTransform ⟨.directional, "#ffffff", 1, false, none, false⟩
      (initialRenderState, wEntityLightNone) rfl rfl rfl,
   per_entity_error_containment.2.2.1 wFailEnv initialRenderState
      wEntityCameraNone wTransform ⟨.perspective, 75, 1, 1, 1000, none, false⟩
      (initialRenderState, wEntityCameraNone) rfl rfl rfl,
   per_entity_error_containment.2.2.2.2 wFailEnv [] 0
      (onAddedToWorld (mkSystem defaultOptions) [wEntityMeshSome])⟩

/-- C8: among the active entities holding both a transform and a camera
component, only the first in world entity order is processed each frame:
the camera walk maps `l1 ++ e :: l2` (with no qualifying entity in `l1`)
to `l1 ++ processed-e :: l2`, leaving every later entity — qualifying or
not — entirely untouched (so a null camera reference after the first stays
null); processing the selected entity lazily creates its camera and makes
it the system's rendering camera; and if no entity qualifies the walk
changes nothing at all. -/
theorem single_camera_selection :
    (∀ (env : FailEnv) (st : RenderState) (l1 : List Entity) (e : Entity)
        (l2 : List Entity),
      (∀ e', e' ∈ l1 → cameraQualifies e' = false) →
      cameraQualifies e = true →
      processCameraEntities env st (l1 ++ e :: l2) =
        ((processCameraEntity env st e).1,
         l1 ++ (processCameraEntity env st e).2 :: l2)) ∧
    (∀ (st : RenderState) (e : Entity) (t : TransformComponent)
        (cc : ThreeCameraComponent),
      e.transform = some t → e.cameraC = some cc → cc.camera = none →
      ∃ c', (processCameraEntity noFail st e).2.cameraC =
          some { cc with camera := some c' } ∧
        (processCameraEntity noFail st e).1.camera =
          CameraUse.entityCamera c' ∧
        c'.uid = st.nextUid) ∧
    (∀ (env : FailEnv) (st : RenderState) (l : List Entity),
      (∀ e', e' ∈ l → cameraQualifies e' = false) →
      processCameraEntities env st l = (st, l)) := by
  refine ⟨?_, ?_, ?_⟩
  · intro env st l1 e l2 h1 he
    exact processCameraEntities_first env st l1 e l2 h1 he
  · intro st e t cc ht hc hcc
    simp only [processCameraEntity, processCameraBody, processCameraBodyRest,
      ht, hc, hcc, noFail, updateCameraTransform]
    repeat' split
    all_goals simp_all [caught_ok, caught_error, logError, createCameraObj_uid]
  · intro env st l h
    exact processCameraEntities_none_qual env st l h

/-- Witness for the C8 theorem: a two-entity world whose second entity is
the only qualifying camera entity, and the camera-creation part at a
concrete entity. -/
theorem single_camera_selection_witness :
    processCameraEntities noFail initialRenderState
        ([wEntityPlain] ++ wEntityCameraNone :: [wEntityCameraNone]) =
      ((processCameraEntity noFail initialRenderState wEntityCameraNone).1,
       [wEntityPlain] ++
         (processCameraEntity noFail initialRenderState wEntityCameraNone).2 ::
           [wEntityCameraNone]) ∧
    (∃ c', (processCameraEntity noFail initialRenderState wEntityCameraNone).2.cameraC =
        some { (⟨.perspective, 75, 1, 1, 1000, none, false⟩ : ThreeCameraComponent) with
          camera := some c' } ∧
      (processCameraEntity noFail initialRenderState wEntityCameraNone).1.camera =
        CameraUse.entityCamera c' ∧
      c'.uid = initialRenderState.nextUid) ∧
    processCameraEntities noFail initialRenderState [wEntityPlain] =
      (initialRenderState, [wEntityPlain]) :=
  ⟨single_camera_selection.1 noFail initialRenderState [wEntityPlain]
      wEntityCameraNone [wEntityCameraNone]
      (by intro e' he'; simp at he'; subst he'; decide) rfl,
   single_camera_selection.2.1 initialRenderState wEntityCameraNone wTransform
      ⟨.perspective, 75, 1, 1, 1000, none, false⟩ rfl rfl rfl,
   single_camera_selection.2.2 noFail initialRenderState [wEntityPlain]
      (by intro e' he'; simp at he'; subst he'; decide)⟩

/-- C5 counterexample: `cexE2` is active and holds both a transform and a
camera component, yet a whole `update` over the world `[cexE1, cexE2]`
returns it completely unchanged — its camera reference stays null — although
processing it would have created its camera.  So the update does not process
*exactly* the entities that are active with a transform and the relevant
component: only the first camera entity is processed. -/
theorem sequential_filtering_counterexample :
    cameraQualifies cexE2 = true ∧
    ((update noFail [] 0 cexSys).toOption.bind (fun s => s.world)).bind
        (fun l => l[1]?) = some cexE2 ∧
    ((processCameraEntity noFail initialRenderState cexE2).2.cameraC.bind
        (fun cc => cc.camera)).isSome = true ∧
    (cexE2.cameraC.bind (fun cc => cc.camera)).isSome = false :=
  ⟨by decide, by decide, by decide, by decide⟩

/-- C5 as amended: each frame, every active entity with a transform and a
mesh (respectively light) component is processed by the mesh (light) walk at
the state the walk has reached by its position; among active entities with a
transform and a camera component only the *first* in world order is
processed; and every entity that is inactive, lacks a transform, or holds
none of the three renderer components is left with all of its components
unchanged by the update. -/
theorem sequential_filtering_amended :
    (∀ (env : FailEnv) (st : RenderState) (l : List Entity) (i : ℕ) (e : Entity),
      l[i]? = some e → meshQualifies e = true →
      ∃ st', ((processMeshEntities env st l).2)[i]? =
        some (processMeshEntity env st' e).2) ∧
    (∀ (env : FailEnv) (opts : SysOptions) (st : RenderState) (l : List Entity)
        (i : ℕ) (e : Entity),
      l[i]? = some e → lightQualifies e = true →
      ∃ st', ((processLightEntities env opts st l).2)[i]? =
        some (processLightEntity env opts st' e).2) ∧
    (∀ (env : FailEnv) (st : RenderState) (l1 : List Entity) (e : Entity)
        (l2 : List Entity),
      (∀ e', e' ∈ l1 → cameraQualifies e' = false) → cameraQualifies e = true →
      processCameraEntities env st (l1 ++ e :: l2) =
        ((processCameraEntity env st e).1,
         l1 ++ (processCameraEntity env st e).2 :: l2)) ∧
    (∀ (env : FailEnv) (ents : List Entity) (dt : ℚ) (sys : SysState)
        (l : List Entity) (i : ℕ) (e : Entity),
      sys.world = some l → l[i]? = some e →
      (e.active = false ∨ e.transform = none ∨
        (e.meshC = none ∧ e.lightC = none ∧ e.cameraC = none)) →
      ∃ sys' l', update env ents dt sys = .ok sys' ∧ sys'.world = some l' ∧
        l'[i]? = some e) := by
  refine ⟨?_, ?_, ?_, ?_⟩
  · intro env st l i e h hq
    exact processMeshEntities_getElem_qual env st l i e h hq
  · intro env opts st l i e h hq
    exact processLightEntities_getElem_qual env opts st l i e h hq
  · intro env st l1 e l2 h1 he
    exact processCameraEntities_first env st l1 e l2 h1 he
  · intro env ents dt sys l i e hw h hnone
    obtain ⟨hm, hl, hc⟩ := not_any_qualifies e hnone
    unfold update
    rw [hw]
    cases hinit : sys.isInitialized with
    | false => exact ⟨sys, l, rfl, hw, h⟩
    | true =>
      refine ⟨_, _, rfl, rfl, ?_⟩
      exact processCameraEntities_getElem_not_qual env _ _ i e
        (processLightEntities_getElem_not_qual env sys.options _ _ i e
          (processMeshEntities_getElem_not_qual env sys.render l i e h hm) hl) hc

/-- Witness for the amended C5 theorem: its four parts applied at concrete
worlds and entities. -/
theorem sequential_filtering_amended_witness :
    (∃ st', ((processMeshEntities noFail initialRenderState [wEntityMeshSome]).2)[0]? =
      some (processMeshEntity noFail st' wEntityMeshSome).2) ∧
    (∃ st', ((processLightEntities noFail defaultOptions initialRenderState
        [wEntityLightSome]).2)[0]? =
      some (processLightEntity noFail defaultOptions st' wEntityLightSome).2) ∧
    processCameraEntities noFail initialRenderState
        ([wEntityPlain] ++ cexE1 :: [cexE2]) =
      ((processCameraEntity noFail initialRenderState cexE1).1,
       [wEntityPlain] ++
         (processCameraEntity noFail initialRenderState cexE1).2 :: [cexE2]) ∧
    (∃ sys' l', update noFail [] 0
        (onAddedToWorld (mkSystem defaultOptions) [wEntityPlain]) = .ok sys' ∧
      sys'.world = some l' ∧ l'[0]? = some wEntityPlain) :=
  ⟨sequential_filtering_amended.1 noFail initialRenderState [wEntityMeshSome]
      0 wEntityMeshSome rfl rfl,
   sequential_filtering_amended.2.1 noFail defaultOptions initialRenderState
      [wEntityLightSome] 0 wEntityLightSome rfl rfl,
   sequential_filtering_amended.2.2.1 noFail initialRenderState [wEntityPlain]
      cexE1 [cexE2] (by intro e' he'; simp at he'; subst he'; decide) rfl,
   sequential_filtering_amended.2.2.2 noFail [] 0
      (onAddedToWorld (mkSystem defaultOptions) [wEntityPlain]) [wEntityPlain]
      0 wEntityPlain rfl rfl (Or.inr (Or.inr ⟨rfl, rfl, rfl⟩))⟩

/-- Witness for the C2 theorem: its four parts applied at concrete mesh
entities with dirty/clean material and geometry components. -/
theorem dirty_flag_update_disposal_witness :
    (∃ mc' m', (processMeshEntity noFail wState10 wEntityMatDirty).2.meshC = some mc' ∧
      mc'.mesh = some m' ∧ m'.material.1 = wState10.nextUid ∧
      m'.material.2 = createMaterial (some wMaterialDirty) ∧
      m'.material.1 ≠ wMesh.material.1 ∧
      (processMeshEntity noFail wState10 wEntityMatDirty).1.disposedMaterials =
        wState10.disposedMaterials ++ [wMesh.material.1] ∧
      (processMeshEntity noFail wState10 wEntityMatDirty).2.materialC =
        some { wMaterialDirty with needsUpdate := false }) ∧
    (∃ mc' m', (processMeshEntity noFail wState10 wEntityMatClean).2.meshC = some mc' ∧
      mc'.mesh = some m' ∧ m'.material = wMesh.material ∧
      (processMeshEntity noFail wState10 wEntityMatClean).1.disposedMaterials =
        wState10.disposedMaterials ∧
      (processMeshEntity noFail wState10 wEntityMatClean).2.materialC =
        some wMaterialClean) ∧
    (∃ mc' m', (processMeshEntity noFail wState10 wEntityGeoDirty).2.meshC = some mc' ∧
      mc'.mesh = some m' ∧ m'.geometry.2 = createGeometry (some wGeometryDirty) ∧
      m'.geometry.1 ≠ wMesh.geometry.1 ∧
      (processMeshEntity noFail wState10 wEntityGeoDirty).1.disposedGeometries =
        wState10.disposedGeometries ++ [wMesh.geometry.1] ∧
      (processMeshEntity noFail wState10 wEntityGeoDirty).2.geometryC =
        some { wGeometryDirty with needsUpdate := false }) ∧
    (∃ mc' m', (processMeshEntity noFail wState10 wEntityGeoClean).2.meshC = some mc' ∧
      mc'.mesh = some m' ∧ m'.geometry = wMesh.geometry ∧
      (processMeshEntity noFail wState10 wEntityGeoClean).1.disposedGeometries =
        wState10.disposedGeometries ∧
      (processMeshEntity noFail wState10 wEntityGeoClean).2.geometryC =
        some wGeometryClean) :=
  ⟨dirty_flag_update_disposal.1 wState10 wEntityMatDirty wTransform
      ⟨some wMesh, false⟩ wMesh wMaterialDirty rfl rfl rfl rfl rfl (by decide),
   dirty_flag_update_disposal.2.1 wState10 wEntityMatClean wTransform
      ⟨some wMesh, false⟩ wMesh wMaterialClean rfl rfl rfl rfl rfl,
   dirty_flag_update_disposal.2.2.1 wState10 wEntityGeoDirty wTransform
      ⟨some wMesh, false⟩ wMesh wGeometryDirty rfl rfl rfl rfl rfl (by decide),
   dirty_flag_update_disposal.2.2.2 wState10 wEntityGeoClean wTransform
      ⟨some wMesh, false⟩ wMesh wGeometryClean rfl rfl rfl rfl rfl⟩

/-- Witness for the C6 theorem: its four parts applied at concrete mesh,
camera and light entities. -/
theorem transform_field_sync_witness :
    (∃ mc' m', (processMeshEntity noFail initialRenderState wEntityMeshSome).2.meshC = some mc' ∧
      mc'.mesh = some m' ∧ m'.position = wTransform.position ∧
      m'.scale = wTransform.scale ∧
      m'.rotation = ⟨⟨wTransform.rotation.x / 180⟩, ⟨wTransform.rotation.y / 180⟩,
        ⟨wTransform.rotation.z / 180⟩⟩) ∧
    (∃ cc' c', (processCameraEntity noFail initialRenderState wEntityCameraSome).2.cameraC = some cc' ∧
      cc'.camera = some c' ∧ c'.position = wTransform.position ∧
      c'.rotation = ⟨⟨wTransform.rotation.x / 180⟩, ⟨wTransform.rotation.y / 180⟩,
        ⟨wTransform.rotation.z / 180⟩⟩) ∧
    (∃ lc' l', (processLightEntity noFail defaultOptions initialRenderState wEntityLightSome).2.lightC = some lc' ∧
      lc'.light = some l' ∧ l'.position = wTransform.position ∧
      l'.rotation = wLight.rotation) ∧
    (∃ lc', (processLightEntity noFail defaultOptions initialRenderState wEntityLightSome).2.lightC = some lc' ∧
      lc'.light = some { wLight with position := wTransform.position }) :=
  ⟨transform_field_sync.1 initialRenderState wEntityMeshSome wTransform
      ⟨some wMesh, false⟩ wMesh rfl rfl rfl,
   transform_field_sync.2.1 initialRenderState wEntityCameraSome wTransform
      ⟨.perspective, 75, 1, 1, 1000, some wCamera, false⟩ wCamera rfl rfl rfl,
   transform_field_sync.2.2.1 defaultOptions initialRenderState wEntityLightSome
      wTransform ⟨.directional, "#ffffff", 1, false, some wLight, false⟩ wLight
      rfl rfl rfl,
   transform_field_sync.2.2.2 defaultOptions initialRenderState wEntityLightSome
      wTransform ⟨.directional, "#ffffff", 1, false, some wLight, false⟩ wLight
      rfl rfl rfl rfl⟩

/-- Witness for the C1 theorem: each of its six parts applied at a concrete
entity, hypotheses discharged by `rfl`. -/
theorem creation_once_update_after_witness :
    (∃ mc' m', (processMeshEntity noFail initialRenderState wEntityMeshSome).2.meshC = some mc' ∧
      mc'.mesh = some m' ∧ m'.uid = wMesh.uid ∧
      (processMeshEntity noFail initialRenderState wEntityMeshSome).1.scene =
        initialRenderState.scene) ∧
    (∃ mc' m', (processMeshEntity noFail initialRenderState wEntityMeshNone).2.meshC = some mc' ∧
      mc'.mesh = some m' ∧ m'.uid = initialRenderState.nextUid + 2 ∧
      (processMeshEntity noFail initialRenderState wEntityMeshNone).1.scene =
        initialRenderState.scene ++ [initialRenderState.nextUid + 2]) ∧
    (∃ lc' l', (processLightEntity noFail defaultOptions initialRenderState wEntityLightSome).2.lightC = some lc' ∧
      lc'.light = some l' ∧ l'.uid = wLight.uid ∧
      (processLightEntity noFail defaultOptions initialRenderState wEntityLightSome).1.scene =
        initialRenderState.scene) ∧
    (∃ lc' l', (processLightEntity noFail defaultOptions initialRenderState wEntityLightNone).2.lightC = some lc' ∧
      lc'.light = some l' ∧ l'.uid = initialRenderState.nextUid ∧
      (processLightEntity noFail defaultOptions initialRenderState wEntityLightNone).1.scene =
        initialRenderState.scene ++ [initialRenderState.nextUid]) ∧
    (∃ cc' c', (processCameraEntity noFail initialRenderState wEntityCameraSome).2.cameraC = some cc' ∧
      cc'.camera = some c' ∧ c'.uid = wCamera.uid ∧
      (processCameraEntity noFail initialRenderState wEntityCameraSome).1.scene =
        initialRenderState.scene) ∧
    (∃ cc' c', (processCameraEntity noFail initialRenderState wEntityCameraNone).2.cameraC = some cc' ∧
      cc'.camera = some c' ∧ c'.uid = initialRenderState.nextUid ∧
      (processCameraEntity noFail initialRenderState wEntityCameraNone).1.scene =
        initialRenderState.scene) :=
  ⟨creation_once_update_after.1 noFail initialRenderState wEntityMeshSome
      wTransform ⟨some wMesh, false⟩ wMesh rfl rfl rfl,
   creation_once_update_after.2.1 initialRenderState wEntityMeshNone
      wTransform ⟨none, false⟩ rfl rfl rfl,
   creation_once_update_after.2.2.1 noFail defaultOptions initialRenderState
      wEntityLightSome wTransform ⟨.directional, "#ffffff", 1, false, some wLight, false⟩
      wLight rfl rfl rfl,
   creation_once_update_after.2.2.2.1 defaultOptions initialRenderState
      wEntityLightNone wTransform ⟨.directional, "#ffffff", 1, false, none, false⟩
      rfl rfl rfl,
   creation_once_update_after.2.2.2.2.1 noFail initialRenderState
      wEntityCameraSome wTransform ⟨.perspective, 75, 1, 1, 1000, some wCamera, false⟩
      wCamera rfl rfl rfl,
   creation_once_update_after.2.2.2.2.2 initialRenderState
      wEntityCameraNone wTransform ⟨.perspective, 75, 1, 1, 1000, none, false⟩
      rfl rfl rfl⟩

/-- C4 counterexample: the geometry factory does not pass a present-but-zero
parameter through to the constructor.  For the configuration
`{type: 'box', parameters: {width: 0}}` the claim's reading
(`createGeometrySpecC4`) dictates `BoxGeometry(0, 1, 1)`, but `_createGeometry`
(`createGeometry`) evaluates `parameters.width || 1` and produces
`BoxGeometry(1, 1, 1)`. -/
theorem createGeometry_zero_param_counterexample :
    createGeometry (some ⟨"box", [("width", 0)], false⟩) ≠
      createGeometrySpecC4 (some ⟨"box", [("width", 0)], false⟩) ∧
    createGeometry (some ⟨"box", [("width", 0)], false⟩) = .boxG 1 1 1 ∧
    createGeometrySpecC4 (some ⟨"box", [("width", 0)], false⟩) = .boxG 0 1 1 :=
  ⟨by decide, by decide, by decide⟩

/-- C4 as amended: `_createGeometry` maps each of the six enumerated
`geometryType` values to the corresponding Three.js constructor, substituting
the documented per-parameter default for every absent *or zero-valued (falsy)*
parameter, and returns the unit box `BoxGeometry(1, 1, 1)` for a missing
geometry component and for every type outside the switch (including
`custom`). -/
theorem createGeometry_matches_amended (g : Option ThreeGeometryComponent) :
    createGeometry g = createGeometryAmendedC4 g := by
  cases g with
  | none => rfl
  | some gc =>
    unfold createGeometry createGeometryAmendedC4
    simp only [jsParam_eq_amendedParam]

/-- C7 counterexample: not every exported component class carries a
`needsUpdate` dirty flag — `TransformComponent` (see the structure above,
mirroring `src/components/TransformComponent.ts`) declares only `position`,
`rotation` and `scale`. -/
theorem components_dirty_flag_counterexample :
    ¬ (∀ k : ComponentKind, componentHasDirtyFlag k = true) := by
  intro h
  exact absurd (h ComponentKind.transformC) (by simp [componentHasDirtyFlag])

/-- C7 as amended: every exported component class except `TransformComponent`
is a plain data record with a boolean `needsUpdate` dirty flag that every
constructor initializes to `false`; `TransformComponent` holds only
`position`, `rotation` and `scale` and has no dirty flag. -/
theorem components_dirty_flag_amended :
    (∀ k : ComponentKind, k ≠ ComponentKind.transformC →
      componentHasDirtyFlag k = true) ∧
    componentHasDirtyFlag ComponentKind.transformC = false ∧
    (∀ c, (mkThreeMaterialComponent c).needsUpdate = false) ∧
    (∀ m, (mkThreeMeshComponent m).needsUpdate = false) ∧
    (∀ g p, (mkThreeGeometryComponent g p).needsUpdate = false) ∧
    (∀ c, (mkThreeLightComponent c).needsUpdate = false) ∧
    (∀ c, (mkThreeCameraComponent c).needsUpdate = false) :=
  ⟨fun k hk => by cases k <;> first | rfl | exact absurd rfl hk,
   rfl, fun _ => rfl, fun _ => rfl, fun _ _ => rfl, fun _ => rfl, fun _ => rfl⟩

/-- Witness for the amended C7 theorem at concrete inputs. -/
theorem components_dirty_flag_amended_witness :
    componentHasDirtyFlag ComponentKind.meshC = true ∧
    (mkThreeMaterialComponent MaterialCfg.empty).needsUpdate = false :=
  ⟨components_dirty_flag_amended.1 ComponentKind.meshC (by simp),
   components_dirty_flag_amended.2.2.1 MaterialCfg.empty⟩

/-- C9: the component constructors substitute the documented default for any
falsy (absent or zero) numeric configuration value — opacity 0 becomes 1.0,
fov 0 becomes 75, light intensity 0 becomes 1.0 — while an explicit 0 survives
exactly for the fields whose default is itself 0 (metalness,
emissiveIntensity), since `0 || 0.0` is again 0. -/
theorem falsy_config_values_replaced :
    (∀ c : MaterialCfg, c.opacity = some 0 →
      (mkThreeMaterialComponent c).opacity = 1) ∧
    (∀ c : CameraCfg, c.fov = some 0 → (mkThreeCameraComponent c).fov = 75) ∧
    (∀ c : LightCfg, (c.intensity = none ∨ c.intensity = some 0) →
      (mkThreeLightComponent c).intensity = 1) ∧
    (∀ (c : MaterialCfg) (q : ℚ), c.metalness = some q →
      (mkThreeMaterialComponent c).metalness = q) ∧
    (∀ (c : MaterialCfg) (q : ℚ), c.emissiveIntensity = some q →
      (mkThreeMaterialComponent c).emissiveIntensity = q) := by
  refine ⟨?_, ?_, ?_, ?_, ?_⟩
  · intro c h
    simp [mkThreeMaterialComponent, jsOrQ, h]
  · intro c h
    simp [mkThreeCameraComponent, jsOrQ, h]
  · intro c h
    rcases h with h | h <;> simp [mkThreeLightComponent, jsOrQ, h]
  · intro c q h
    simp only [mkThreeMaterialComponent, jsOrQ, h]
    split <;> simp_all
  · intro c q h
    simp only [mkThreeMaterialComponent, jsOrQ, h]
    split <;> simp_all

/-- Witness for the C9 theorem at concrete configurations. -/
theorem falsy_config_values_replaced_witness :
    (mkThreeMaterialComponent { MaterialCfg.empty with opacity := some 0 }).opacity = 1 ∧
    (mkThreeCameraComponent { CameraCfg.empty with fov := some 0 }).fov = 75 ∧
    (mkThreeLightComponent LightCfg.empty).intensity = 1 ∧
    (mkThreeMaterialComponent { MaterialCfg.empty with metalness := some 0 }).metalness = 0 :=
  ⟨falsy_config_values_replaced.1 _ rfl,
   falsy_config_values_replaced.2.1 _ rfl,
   falsy_config_values_replaced.2.2.1 _ (Or.inl rfl),
   falsy_config_values_replaced.2.2.2.1 _ 0 rfl⟩

/-- C10: `update` is a no-op before initialization: if the system has not
been added to a world (`_isInitialized` false, or no `this.world`), or after
it has been removed (`onRemovedFromWorld` clears `_isInitialized`), `update`
returns `ok` with the state completely unchanged — no entity processed, no
render, and the frame counter untouched. -/
theorem update_noop_when_uninitialized :
    (∀ (env : FailEnv) (ents : List Entity) (dt : ℚ) (sys : SysState),
      sys.isInitialized = false → update env ents dt sys = .ok sys) ∧
    (∀ (env : FailEnv) (ents : List Entity) (dt : ℚ) (sys : SysState),
      sys.world = none → update env ents dt sys = .ok sys) ∧
    (∀ (env : FailEnv) (ents : List Entity) (dt : ℚ) (sys : SysState),
      update env ents dt (onRemovedFromWorld sys) = .ok (onRemovedFromWorld sys)) := by
  have h1 : ∀ (env : FailEnv) (ents : List Entity) (dt : ℚ) (sys : SysState),
      sys.isInitialized = false → update env ents dt sys = .ok sys := by
    intro env ents dt sys h
    unfold update
    cases hw : sys.world with
    | none => rfl
    | some w => simp [h]
  refine ⟨h1, ?_, ?_⟩
  · intro env ents dt sys h
    unfold update
    rw [h]
  · intro env ents dt sys
    exact h1 env ents dt _ rfl

/-- Witness for the C10 theorem: a freshly constructed system. -/
theorem update_noop_when_uninitialized_witness :
    update noFail [] 0 (mkSystem defaultOptions) = .ok (mkSystem defaultOptions) :=
  update_noop_when_uninitialized.1 noFail [] 0 (mkSystem defaultOptions) rfl

end NovaRenderThree
